import Mathlib

/-!
Verification development for the PWA client utilities of the repository
(install-prompt banner controller and push-notification subscription helper).

The two JavaScript modules are shallowly embedded:

- the install-prompt module (`install-prompt.js`, in a 7-day-TTL variant and a
  3-day-TTL variant) is modelled with explicit state: the single local-storage
  slot (`Option String`), the document as a list of banner DOM nodes, and the
  module-scoped deferred-prompt handle as an `Option`;
- the notification helper (`notification-helper.js`) is modelled against a
  deterministic platform oracle (`Env`) fixing one outcome per platform or
  remote operation; each function returns its result together with an event
  trace recording logs, alerts and external calls, and a thrown JavaScript
  exception is an `Except.error`.

JavaScript number semantics relevant here (`parseInt`, NaN propagation through
subtraction, NaN comparisons being false) are modelled with `Option Int`,
`none` standing for NaN.
-/

namespace InstallPrompt

/-- Radix-10 digit test used by the `parseInt` model. -/
def isDigit10 (c : Char) : Bool :=
  '0' ≤ c ∧ c ≤ '9'

/-- Longest leading run of decimal digits of a character list. -/
def leadingDigits : List Char → List Char
  | [] => []
  | c :: cs => if isDigit10 c then c :: leadingDigits cs else []

/-- Numeric value of a (non-empty) digit list, most significant first. -/
def digitsVal (ds : List Char) : Nat :=
  ds.foldl (fun n c => 10 * n + (c.toNat - '0'.toNat)) 0

/-- JavaScript whitespace accepted before the number by `parseInt`
(the common ASCII cases; exotic Unicode space code points are not modelled,
they never occur in values this module writes). -/
def isJsWhitespace (c : Char) : Bool :=
  c = ' ' ∨ c = '\t' ∨ c = '\n' ∨ c = '\r'

/-- Model of JavaScript `parseInt(s, 10)`: skip leading whitespace, read an
optional sign, then the longest run of decimal digits; the result is `none`
(NaN) when no digit is found, and trailing junk is ignored. -/
def parseInt10 (s : String) : Option Int :=
  let cs := s.toList.dropWhile isJsWhitespace
  match cs with
  | '-' :: rest =>
    let ds := leadingDigits rest
    if ds = [] then none else some (-(digitsVal ds : Int))
  | '+' :: rest =>
    let ds := leadingDigits rest
    if ds = [] then none else some (digitsVal ds : Int)
  | _ =>
    let ds := leadingDigits cs
    if ds = [] then none else some (digitsVal ds : Int)

/-- JavaScript subtraction on possibly-NaN numbers: NaN propagates. -/
def jsSub (a b : Option Int) : Option Int :=
  match a, b with
  | some x, some y => some (x - y)
  | _, _ => none

/-- JavaScript `>` against a plain number: any comparison with NaN is false. -/
def jsGt (a : Option Int) (b : Int) : Bool :=
  match a with
  | none => false
  | some x => b < x

/-- Constant `INSTALL_DISMISSED_DURATION` of the 7-day variant
(`7 * 24 * 60 * 60 * 1000`). -/
def INSTALL_DISMISSED_DURATION : Int := 7 * 24 * 60 * 60 * 1000

/-- Constant `INSTALL_DISMISSED_DURATION` of the 3-day variant
(`3 * 24 * 60 * 60 * 1000`). -/
def INSTALL_DISMISSED_DURATION_V2 : Int := 3 * 24 * 60 * 60 * 1000

/-- Model of `isInstallDismissed()`. The store argument is the value of
`localStorage.getItem(INSTALL_DISMISSED_KEY)` (`none` = absent); the result is
the returned boolean together with the store after the call (`removeItem`
empties it). `!dismissedTime` is true exactly for `null` and the empty string;
`now - dismissedAt > TTL` is evaluated with NaN semantics. The TTL is a
parameter so both file variants are covered by one definition. -/
def isInstallDismissed (ttl : Int) (store : Option String) (now : Int) :
    Bool × Option String :=
  match store with
  | none => (false, none)
  | some dismissedTime =>
    if dismissedTime = "" then (false, some dismissedTime)
    else
      let dismissedAt := parseInt10 dismissedTime
      if jsGt (jsSub (some now) dismissedAt) ttl then
        (false, none)
      else
        (true, some dismissedTime)

/-- A banner DOM element as created by `showInstallBanner`. The two
`innerHTML` variants are abstracted to the `iosVariant` flag; the
`install-banner--visible` CSS class is the `visible` field (applied
asynchronously after insertion, so `false` at creation). Event-listener
wiring is not part of the node model. -/
structure BannerNode where
  id : String
  className : String
  iosVariant : Bool
  visible : Bool
deriving DecidableEq

/-- Number of banner nodes (id `install-banner`) in the document. -/
def bannerCount (doc : List BannerNode) : Nat :=
  doc.countP (fun b => b.id = "install-banner")

/-- Model of `showInstallBanner()` on the document (a list of the nodes this
module manages, in body order). `getElementById` finding an existing banner
makes the call return immediately; otherwise a fresh banner node is appended.
The choice between the two content variants is passed in as `iosVariant`
(computed by the caller from `isIOS()` / `isSafari()` / the deferred prompt). -/
def showInstallBanner (iosVariant : Bool) (doc : List BannerNode) :
    List BannerNode :=
  if doc.any (fun b => b.id = "install-banner") then doc
  else
    doc ++ [{ id := "install-banner", className := "install-banner",
              iosVariant := iosVariant, visible := false }]

/-- Model of `hideInstallBanner()` after its 300 ms removal timer has fired:
if a banner node exists, the first one found is removed from the document;
otherwise nothing happens. -/
def hideInstallBanner (doc : List BannerNode) : List BannerNode :=
  if doc.any (fun b => b.id = "install-banner") then
    doc.eraseP (fun b => b.id = "install-banner")
  else doc

/-- The deferred install event handle captured from `beforeinstallprompt`;
`outcome` is the user choice the platform will report for its prompt. -/
structure DeferredPrompt where
  outcome : String
deriving DecidableEq

/-- Module-scoped state of the install-prompt module, plus observation
lists: `log` for `console.log` output, `alerts` for `alert` calls, and
`prompts` recording each invocation of the `prompt()` capability of a deferred handle. -/
structure InstallState where
  deferredPrompt : Option DeferredPrompt
  doc : List BannerNode
  log : List String
  alerts : List String
  prompts : List DeferredPrompt

/-- Alert text of the manual-instructions fallback in the 3-day variant. -/
def manualInstallInstructions : String :=
  "Untuk menginstall aplikasi:\n\n1. Buka menu browser (⋮)\n2. Pilih \"Install app\" atau \"Add to Home Screen\""

/-- Model of `triggerInstall()`. With no held handle, the 3-day variant
(`manualAlertVariant = true`) logs and alerts manual instructions, the 7-day
variant only logs; either way it returns without touching the handle. With a
held handle it invokes the `prompt()` capability of the handle, awaits and logs the reported
outcome, clears the handle to `null` and hides the banner. -/
def triggerInstall (manualAlertVariant : Bool) (st : InstallState) :
    InstallState :=
  match st.deferredPrompt with
  | none =>
    if manualAlertVariant then
      { st with
        log := st.log ++
          ["[InstallPrompt] No deferred prompt available, showing manual instructions"],
        alerts := st.alerts ++ [manualInstallInstructions] }
    else
      { st with
        log := st.log ++ ["[InstallPrompt] No deferred prompt available"] }
  | some dp =>
    { st with
      prompts := st.prompts ++ [dp],
      log := st.log ++ ["[InstallPrompt] User response: " ++ dp.outcome],
      deferredPrompt := none,
      doc := hideInstallBanner st.doc }

end InstallPrompt

namespace NotificationHelper

/-- Values of `Notification.permission`, also the values
`Notification.requestPermission()` resolves to. -/
inductive Permission where
  | granted
  | denied
  | defaultP
deriving DecidableEq

/-- Response object of the remote API calls; only its `ok` field is read. -/
structure ApiResp where
  ok : Bool
deriving DecidableEq

/-- A platform push-subscription object: the `endpoint` and `keys` exposed by
`toJSON()`, and the fixed behaviour of its `unsubscribe()` capability
(`Except.error` = the returned promise rejects, `Except.ok b` = it resolves
to the boolean `b`). -/
structure Subscription where
  endpoint : String
  keys : String
  unsubscribe : Except String Bool

/-- Observable events of a run: console output, alerts, and each external
platform or remote call, in program order. -/
inductive Ev where
  | log (msg : String)
  | logError (msg : String)
  | alert (msg : String)
  | requestPermissionCall
  | swReadyCall
  | getSubscriptionCall
  | pmSubscribeCall
  | apiSubscribeCall (endpoint keys : String)
  | apiUnsubscribeCall (endpoint : String)
  | subUnsubscribeCall (endpoint : String)
deriving DecidableEq

/-- An event trace, in the order the events happen. -/
abbrev Trace := List Ev

/-- Deterministic oracle fixing the behaviour of the platform and of the
remote collaborators for one run: each operation has one fixed outcome,
`Except.error` meaning the call throws / its promise rejects. -/
structure Env where
  notificationAvailable : Bool
  permission : Permission
  requestPermission : Except String Permission
  swReady : Except String Unit
  getSubscription : Except String (Option Subscription)
  pmSubscribe : Except String Subscription
  subscribePushNotification : String → String → Except String ApiResp
  unsubscribePushNotification : String → Except String ApiResp

/-- Model of `requestNotificationPermission(silent)`: unavailable API gives
false with a console error; `granted` short-circuits true; `denied`
short-circuits false (a console log unless silent); otherwise the user is
prompted and only a `granted` outcome yields true, `denied` and `default`
yield false with an alert unless silent. A rejecting prompt propagates
(`Except.error`). -/
def requestNotificationPermission (env : Env) (silent : Bool) :
    Except String Bool × Trace :=
  if env.notificationAvailable = false then
    (Except.ok false, [Ev.logError ("Notification API unsupported.")])
  else if env.permission = Permission.granted then
    (Except.ok true, [])
  else if env.permission = Permission.denied then
    (Except.ok false,
      if silent then []
      else [Ev.log ("Notification permission was previously denied.")])
  else
    match env.requestPermission with
    | Except.error e => (Except.error e, [Ev.requestPermissionCall])
    | Except.ok status =>
      if status = Permission.denied then
        (Except.ok false,
          Ev.requestPermissionCall ::
            (if silent then [] else [Ev.alert ("Izin notifikasi ditolak.")]))
      else if status = Permission.defaultP then
        (Except.ok false,
          Ev.requestPermissionCall ::
            (if silent then []
             else [Ev.alert ("Izin notifikasi ditutup atau diabaikan.")]))
      else
        (Except.ok true, [Ev.requestPermissionCall])

/-- Model of `getPushSubscription()`: await `navigator.serviceWorker.ready`,
then `registration.pushManager.getSubscription()`; a rejection of either
propagates. -/
def getPushSubscription (env : Env) :
    Except String (Option Subscription) × Trace :=
  match env.swReady with
  | Except.error e => (Except.error e, [Ev.swReadyCall])
  | Except.ok _ =>
    match env.getSubscription with
    | Except.error e => (Except.error e, [Ev.swReadyCall, Ev.getSubscriptionCall])
    | Except.ok s => (Except.ok s, [Ev.swReadyCall, Ev.getSubscriptionCall])

/-- The `failureSubscribeMessage` constant of `subscribe()`. -/
def failureSubscribeMessage : String :=
  "Langganan push notification gagal diaktifkan."

/-- The `successSubscribeMessage` constant of `subscribe()`. -/
def successSubscribeMessage : String :=
  "Langganan push notification berhasil diaktifkan."

/-- The `try` block of `subscribe()` (source lines 135-152). Returns the
block outcome (`Except.error` = an exception reached the `catch`), the value
of the `pushSubscription` variable at that point (`none` = still
`undefined`, which the `catch` block will dereference), and the events of
the block. On `response.ok` false the code logs, alerts failure, then
undoes the platform subscription and returns; on success it alerts success. -/
def subscribeTry (env : Env) :
    Except String Unit × Option Subscription × Trace :=
  match env.swReady with
  | Except.error e => (Except.error e, none, [Ev.swReadyCall])
  | Except.ok _ =>
    match env.pmSubscribe with
    | Except.error e =>
      (Except.error e, none, [Ev.swReadyCall, Ev.pmSubscribeCall])
    | Except.ok sub =>
      match env.subscribePushNotification sub.endpoint sub.keys with
      | Except.error e =>
        (Except.error e, some sub,
          [Ev.swReadyCall, Ev.pmSubscribeCall,
           Ev.apiSubscribeCall sub.endpoint sub.keys])
      | Except.ok resp =>
        if resp.ok = false then
          match sub.unsubscribe with
          | Except.error e =>
            (Except.error e, some sub,
              [Ev.swReadyCall, Ev.pmSubscribeCall,
               Ev.apiSubscribeCall sub.endpoint sub.keys,
               Ev.logError ("subscribe: response:"),
               Ev.alert failureSubscribeMessage,
               Ev.subUnsubscribeCall sub.endpoint])
          | Except.ok _ =>
            (Except.ok (), some sub,
              [Ev.swReadyCall, Ev.pmSubscribeCall,
               Ev.apiSubscribeCall sub.endpoint sub.keys,
               Ev.logError ("subscribe: response:"),
               Ev.alert failureSubscribeMessage,
               Ev.subUnsubscribeCall sub.endpoint])
        else
          (Except.ok (), some sub,
            [Ev.swReadyCall, Ev.pmSubscribeCall,
             Ev.apiSubscribeCall sub.endpoint sub.keys,
             Ev.alert successSubscribeMessage])

/-- Model of `subscribe()`. The permission request and the
already-subscribed check run before the `try` block, so a rejection there
propagates out of `subscribe()` itself. The `catch` block logs, alerts
failure, then runs `await pushSubscription.unsubscribe()`: when the
exception occurred before `pushSubscription` was assigned this dereferences
`undefined` and the resulting TypeError propagates; when the rollback call
itself rejects, that rejection propagates. -/
def subscribe (env : Env) : Except String Unit × Trace :=
  match requestNotificationPermission env false with
  | (Except.error e, t1) => (Except.error e, t1)
  | (Except.ok false, t1) => (Except.ok (), t1)
  | (Except.ok true, t1) =>
    match getPushSubscription env with
    | (Except.error e, t2) => (Except.error e, t1 ++ t2)
    | (Except.ok (some _), t2) =>
      (Except.ok (),
        t1 ++ t2 ++ [Ev.alert ("Sudah berlangganan push notification.")])
    | (Except.ok none, t2) =>
      let t3 := t1 ++ t2 ++ [Ev.log ("Mulai berlangganan push notification...")]
      match subscribeTry env with
      | (Except.ok _, _, t4) => (Except.ok (), t3 ++ t4)
      | (Except.error _, subOpt, t4) =>
        let t5 := t3 ++ t4 ++
          [Ev.logError ("subscribe: error:"), Ev.alert failureSubscribeMessage]
        match subOpt with
        | none =>
          (Except.error
            "TypeError: Cannot read properties of undefined (reading an unsubscribe member)",
            t5)
        | some sub =>
          match sub.unsubscribe with
          | Except.error e2 =>
            (Except.error e2, t5 ++ [Ev.subUnsubscribeCall sub.endpoint])
          | Except.ok _ =>
            (Except.ok (), t5 ++ [Ev.subUnsubscribeCall sub.endpoint])

/-- The `try` block of `autoSubscribe()` (source lines 75-111):
availability check, already-subscribed check, silent permission request,
`serviceWorker.ready`, `pushManager.subscribe`, remote registration, and
on `response.ok` false a console error followed by the rollback
unsubscribe and a false return. -/
def autoSubscribeTry (env : Env) : Except String Bool × Trace :=
  if env.notificationAvailable = false then
    (Except.ok false, [Ev.log ("[AutoSubscribe] Notification API not available")])
  else
    match getPushSubscription env with
    | (Except.error e, t1) => (Except.error e, t1)
    | (Except.ok (some _), t1) =>
      (Except.ok true,
        t1 ++ [Ev.log ("[AutoSubscribe] Already subscribed to push notifications")])
    | (Except.ok none, t1) =>
      match requestNotificationPermission env true with
      | (Except.error e, t2) => (Except.error e, t1 ++ t2)
      | (Except.ok false, t2) =>
        (Except.ok false,
          t1 ++ t2 ++ [Ev.log ("[AutoSubscribe] Notification permission not granted")])
      | (Except.ok true, t2) =>
        let t3 := t1 ++ t2 ++
          [Ev.log ("[AutoSubscribe] Subscribing to push notifications...")]
        match env.swReady with
        | Except.error e => (Except.error e, t3 ++ [Ev.swReadyCall])
        | Except.ok _ =>
          match env.pmSubscribe with
          | Except.error e =>
            (Except.error e, t3 ++ [Ev.swReadyCall, Ev.pmSubscribeCall])
          | Except.ok sub =>
            let t4 := t3 ++ [Ev.swReadyCall, Ev.pmSubscribeCall,
              Ev.apiSubscribeCall sub.endpoint sub.keys]
            match env.subscribePushNotification sub.endpoint sub.keys with
            | Except.error e => (Except.error e, t4)
            | Except.ok resp =>
              if resp.ok = false then
                let t5 := t4 ++
                  [Ev.logError ("[AutoSubscribe] Failed to register subscription on server:"),
                   Ev.subUnsubscribeCall sub.endpoint]
                match sub.unsubscribe with
                | Except.error e => (Except.error e, t5)
                | Except.ok _ => (Except.ok false, t5)
              else
                (Except.ok true,
                  t4 ++ [Ev.log ("[AutoSubscribe] Successfully subscribed to push notifications")])

/-- Model of `autoSubscribe()`: the whole body runs in a `try` whose `catch`
logs the error and returns false, so the function always returns a boolean. -/
def autoSubscribe (env : Env) : Bool × Trace :=
  match autoSubscribeTry env with
  | (Except.ok b, t) => (b, t)
  | (Except.error _, t) => (false, t ++ [Ev.logError ("[AutoSubscribe] Error:")])

/-- The `failureUnsubscribeMessage` constant of `unsubscribe()`. -/
def failureUnsubscribeMessage : String :=
  "Langganan push notification gagal dinonaktifkan."

/-- The `successUnsubscribeMessage` constant of `unsubscribe()`. -/
def successUnsubscribeMessage : String :=
  "Langganan push notification berhasil dinonaktifkan."

/-- The `try` block of `unsubscribe()` (source lines 166-193): fetch the
current subscription (none → alert and return); remote unsubscribe by
endpoint (`!response.ok` → alert failure, log, return, platform subscription
untouched); platform `unsubscribe()` (resolving false → alert failure and
re-register endpoint and keys with the remote subscribe API); full success →
success alert. -/
def unsubscribeTry (env : Env) : Except String Unit × Trace :=
  match getPushSubscription env with
  | (Except.error e, t) => (Except.error e, t)
  | (Except.ok none, t) =>
    (Except.ok (),
      t ++ [Ev.alert ("Tidak bisa memutus langganan push notification karena belum berlangganan sebelumnya.")])
  | (Except.ok (some sub), t) =>
    match env.unsubscribePushNotification sub.endpoint with
    | Except.error e =>
      (Except.error e, t ++ [Ev.apiUnsubscribeCall sub.endpoint])
    | Except.ok resp =>
      let t2 := t ++ [Ev.apiUnsubscribeCall sub.endpoint]
      if resp.ok = false then
        (Except.ok (),
          t2 ++ [Ev.alert failureUnsubscribeMessage,
                 Ev.logError ("unsubscribe: response:")])
      else
        let t3 := t2 ++ [Ev.subUnsubscribeCall sub.endpoint]
        match sub.unsubscribe with
        | Except.error e => (Except.error e, t3)
        | Except.ok unsubscribed =>
          if unsubscribed = false then
            match env.subscribePushNotification sub.endpoint sub.keys with
            | Except.error e =>
              (Except.error e,
                t3 ++ [Ev.alert failureUnsubscribeMessage,
                       Ev.apiSubscribeCall sub.endpoint sub.keys])
            | Except.ok _ =>
              (Except.ok (),
                t3 ++ [Ev.alert failureUnsubscribeMessage,
                       Ev.apiSubscribeCall sub.endpoint sub.keys])
          else
            (Except.ok (), t3 ++ [Ev.alert successUnsubscribeMessage])

/-- Model of `unsubscribe()`: the whole body runs in a `try` whose `catch`
alerts generic failure and logs; the `catch` body itself cannot throw, so
`unsubscribe()` never propagates an exception. -/
def unsubscribe (env : Env) : Except String Unit × Trace :=
  match unsubscribeTry env with
  | (Except.ok _, t) => (Except.ok (), t)
  | (Except.error _, t) =>
    (Except.ok (),
      t ++ [Ev.alert failureUnsubscribeMessage, Ev.logError ("unsubscribe: error:")])

/-- The alert messages of a trace, in order. -/
def alertsOf (t : Trace) : List String :=
  t.filterMap fun ev =>
    match ev with
    | Ev.alert m => some m
    | _ => none

/-- The console messages (`console.log` and `console.error`) of a trace. -/
def logsOf (t : Trace) : List String :=
  t.filterMap fun ev =>
    match ev with
    | Ev.log m => some m
    | Ev.logError m => some m
    | _ => none

/-- Test for a platform `subscription.unsubscribe()` invocation. -/
def isSubUnsub (ev : Ev) : Bool :=
  match ev with
  | Ev.subUnsubscribeCall _ => true
  | _ => false

/-- Test for the interactive failure alert of `subscribe()`. -/
def isFailureSubAlert (ev : Ev) : Bool :=
  match ev with
  | Ev.alert m => m = failureSubscribeMessage
  | _ => false

/-- Test for a `pushManager.subscribe` invocation. -/
def isPmSubscribe (ev : Ev) : Bool :=
  match ev with
  | Ev.pmSubscribeCall => true
  | _ => false

end NotificationHelper

namespace InstallPrompt

/-- Erasing the first element satisfying `p` lowers the `p`-count by one
(count is unchanged when no element satisfies `p`). -/
theorem countP_eraseP {α : Type} (p : α → Bool) (l : List α) :
    (l.eraseP p).countP p = l.countP p - 1 := by
  induction l with
  | nil => simp [List.eraseP]
  | cons a l ih =>
    by_cases h : p a
    · simp [List.eraseP_cons, h, List.countP_cons]
    · simp only [List.eraseP_cons, h, cond_false, List.countP_cons, ih]
      simp [h]

/-- The `getElementById` guard of the banner functions, in counting form. -/
theorem banner_any_iff (doc : List BannerNode) :
    doc.any (fun b => b.id = "install-banner") = true ↔ 0 < bannerCount doc := by
  rw [bannerCount, List.countP_pos_iff, List.any_eq_true]

/-- One `showInstallBanner` call: an existing banner is kept as is, an
absent one is created, so the banner count afterwards is `max count 1`. -/
theorem bannerCount_show (v : Bool) (doc : List BannerNode) :
    bannerCount (showInstallBanner v doc) = max (bannerCount doc) 1 := by
  unfold showInstallBanner
  by_cases h : doc.any (fun b => b.id = "install-banner") = true
  · have hpos := (banner_any_iff doc).mp h
    rw [if_pos h]
    exact (Nat.max_eq_left hpos).symm
  · have hzero : bannerCount doc = 0 := by
      rcases Nat.eq_zero_or_pos (bannerCount doc) with h0 | hpos
      · exact h0
      · exact absurd ((banner_any_iff doc).mpr hpos) h
    rw [if_neg h]
    unfold bannerCount at hzero ⊢
    rw [List.countP_append, hzero]
    rfl

/-- A document already holding a banner is untouched by `showInstallBanner`. -/
theorem showInstallBanner_noop (v : Bool) (doc : List BannerNode)
    (h : 0 < bannerCount doc) : showInstallBanner v doc = doc := by
  unfold showInstallBanner
  rw [if_pos ((banner_any_iff doc).mpr h)]

/-- Any further `showInstallBanner` calls keep the count at exactly one. -/
theorem bannerCount_foldl_show (vs : List Bool) (doc : List BannerNode)
    (h : bannerCount doc = 1) :
    bannerCount (vs.foldl (fun d w => showInstallBanner w d) doc) = 1 := by
  induction vs generalizing doc with
  | nil => simpa using h
  | cons v vs ih =>
    simp only [List.foldl_cons]
    exact ih _ (by rw [bannerCount_show, h]; exact Nat.max_self 1)

/-- Function `hideInstallBanner` removes the banner when present, so from a
document satisfying the at-most-one invariant it leaves no banner. -/
theorem bannerCount_hide (doc : List BannerNode) :
    bannerCount (hideInstallBanner doc) = bannerCount doc - 1 ∨
      (bannerCount doc = 0 ∧ hideInstallBanner doc = doc) := by
  unfold hideInstallBanner
  by_cases h : doc.any (fun b => b.id = "install-banner") = true
  · left
    simp [h, bannerCount, countP_eraseP]
  · right
    have hzero : bannerCount doc = 0 := by
      rcases Nat.eq_zero_or_pos (bannerCount doc) with h0 | hpos
      · exact h0
      · exact absurd ((banner_any_iff doc).mpr hpos) h
    simp [h, hzero]

/-- Claim C1: for every stored value parsing to a number `T` under either
variant TTL (7 days or 3 days), `isInstallDismissed` returns true exactly
when `now - T ≤ TTL`; once `now - T > TTL` it deletes the record and returns
false, and every subsequent read of the emptied store returns false without
writing; an absent record always yields false with the store untouched. -/
theorem isInstallDismissed_numeric_spec (ttl T now : Int) (s : String)
    (_httl : ttl = INSTALL_DISMISSED_DURATION ∨ ttl = INSTALL_DISMISSED_DURATION_V2)
    (hp : parseInt10 s = some T) :
    ((isInstallDismissed ttl (some s) now).1 = true ↔ now - T ≤ ttl)
    ∧ (ttl < now - T →
        isInstallDismissed ttl (some s) now = (false, none)
        ∧ ∀ now2 : Int,
            isInstallDismissed ttl (isInstallDismissed ttl (some s) now).2 now2
              = (false, none))
    ∧ (∀ now2 : Int, isInstallDismissed ttl none now2 = (false, none)) := by
  have hs : s ≠ "" := by
    intro h
    rw [h] at hp
    simp [parseInt10, leadingDigits] at hp
  refine ⟨?_, ?_, fun now2 => rfl⟩
  · simp only [isInstallDismissed, hs, if_false, hp, jsSub, jsGt]
    by_cases h : ttl < now - T
    · simp [h]
      omega
    · simp [h]
      omega
  · intro h
    have : isInstallDismissed ttl (some s) now = (false, none) := by
      simp [isInstallDismissed, hs, hp, jsSub, jsGt, h]
    exact ⟨this, fun now2 => by rw [this]; rfl⟩

/-- Witness for C1 at concrete inputs: a record written at time 100 is still
dismissed at time 50 under the 7-day TTL. -/
theorem isInstallDismissed_numeric_spec_witness :
    (isInstallDismissed INSTALL_DISMISSED_DURATION (some ("100")) 50).1 = true :=
  ((isInstallDismissed_numeric_spec INSTALL_DISMISSED_DURATION 100 50 ("100")
      (Or.inl rfl) (by decide)).1).mpr (by decide)

/-- Claim C7: `showInstallBanner` is a no-op when a banner node exists; two
calls in succession from any document satisfying the at-most-one invariant
leave exactly one banner node, as does any non-empty sequence of calls; and
both `showInstallBanner` and `hideInstallBanner` preserve the invariant. -/
theorem showInstallBanner_singleton (doc : List BannerNode) (v v2 : Bool)
    (vs : List Bool) (h : bannerCount doc ≤ 1) :
    (0 < bannerCount doc → showInstallBanner v doc = doc)
    ∧ bannerCount (showInstallBanner v2 (showInstallBanner v doc)) = 1
    ∧ (vs ≠ [] →
        bannerCount (vs.foldl (fun d w => showInstallBanner w d) doc) = 1)
    ∧ bannerCount (showInstallBanner v doc) ≤ 1
    ∧ bannerCount (hideInstallBanner doc) ≤ 1 := by
  refine ⟨showInstallBanner_noop v doc, ?_, ?_, ?_, ?_⟩
  · rw [bannerCount_show, bannerCount_show]
    omega
  · intro hvs
    match vs with
    | [] => exact absurd rfl hvs
    | w :: ws =>
      simp only [List.foldl_cons]
      exact bannerCount_foldl_show ws _ (by rw [bannerCount_show]; omega)
  · rw [bannerCount_show]
    omega
  · rcases bannerCount_hide doc with hh | ⟨h0, heq⟩
    · omega
    · rw [heq]
      exact h

/-- Witness for C7: two calls on the empty document leave one banner. -/
theorem showInstallBanner_singleton_witness :
    bannerCount (showInstallBanner false (showInstallBanner true [])) = 1 :=
  (showInstallBanner_singleton [] true false [] (by decide)).2.1

/-- Claim C8: with a held handle, `triggerInstall` invokes the
prompt capability (recorded in `prompts`), logs the reported outcome, clears
the handle to `null` and hides the banner; the handle is consumed exactly
once, so a second call adds no prompt invocation and leaves the handle null,
under either fallback variant. -/
theorem triggerInstall_consumes_once (flag flag2 : Bool) (st : InstallState)
    (dp : DeferredPrompt) (h : st.deferredPrompt = some dp)
    (hb : bannerCount st.doc ≤ 1) :
    (triggerInstall flag st).prompts = st.prompts ++ [dp]
    ∧ (triggerInstall flag st).log
        = st.log ++ ["[InstallPrompt] User response: " ++ dp.outcome]
    ∧ (triggerInstall flag st).deferredPrompt = none
    ∧ bannerCount (triggerInstall flag st).doc = 0
    ∧ (triggerInstall flag2 (triggerInstall flag st)).prompts
        = st.prompts ++ [dp]
    ∧ (triggerInstall flag2 (triggerInstall flag st)).deferredPrompt = none := by
  have hhide : bannerCount (hideInstallBanner st.doc) = 0 := by
    rcases bannerCount_hide st.doc with hh | ⟨h0, heq⟩
    · omega
    · rw [heq]
      exact h0
  refine ⟨by simp [triggerInstall, h], by simp [triggerInstall, h],
    by simp [triggerInstall, h], by simp [triggerInstall, h, hhide], ?_, ?_⟩
  · cases flag2 <;> simp [triggerInstall, h]
  · cases flag2 <;> simp [triggerInstall, h]

/-- Witness for C8 at a concrete state holding a handle and a banner. -/
theorem triggerInstall_consumes_once_witness :
    (triggerInstall true
      { deferredPrompt := some { outcome := "accepted" },
        doc := [{ id := "install-banner", className := "install-banner",
                  iosVariant := false, visible := true }],
        log := [], alerts := [], prompts := [] }).prompts
      = [] ++ [{ outcome := "accepted" }] :=
  (triggerInstall_consumes_once true false
    { deferredPrompt := some { outcome := "accepted" },
      doc := [{ id := "install-banner", className := "install-banner",
                iosVariant := false, visible := true }],
      log := [], alerts := [], prompts := [] }
    { outcome := "accepted" } rfl (by decide)).1

/-- Counterexample to C9 as stated: the empty string is a stored value for
which `parseInt` yields NaN, yet `isInstallDismissed` returns false (the
`!dismissedTime` falsy check fires before the NaN branch), under both TTL
variants, with the record kept. -/
theorem isInstallDismissed_nan_counterexample :
    parseInt10 ("") = none
    ∧ isInstallDismissed INSTALL_DISMISSED_DURATION (some ("")) 0
        = (false, some (""))
    ∧ isInstallDismissed INSTALL_DISMISSED_DURATION_V2 (some ("")) 0
        = (false, some ("")) := by
  decide

/-- Claim C9 amended: for every NON-EMPTY stored value on which `parseInt`
yields NaN, `isInstallDismissed` returns true at every current time and
never deletes the record (the NaN age comparison fails the expiry branch);
the empty string instead falls to the falsy check and yields false. -/
theorem isInstallDismissed_nan_amended (ttl now : Int) (s : String)
    (hs : s ≠ "") (hp : parseInt10 s = none) :
    isInstallDismissed ttl (some s) now = (true, some s) := by
  simp [isInstallDismissed, hs, hp, jsSub, jsGt]

/-- Witness for the amended C9 at the stored value `"abc"`. -/
theorem isInstallDismissed_nan_amended_witness :
    isInstallDismissed INSTALL_DISMISSED_DURATION (some ("abc")) 12345
      = (true, some ("abc")) :=
  isInstallDismissed_nan_amended INSTALL_DISMISSED_DURATION 12345 ("abc")
    (by decide) (by decide)

end InstallPrompt

namespace NotificationHelper

/-- Helper: the `catch` block of `unsubscribe()` only alerts and logs, so
`unsubscribe()` converts every exception of its body and never propagates. -/
theorem unsubscribe_never_throws (env : Env) :
    (unsubscribe env).1 = Except.ok () := by
  unfold unsubscribe
  rcases h : unsubscribeTry env with ⟨r, t⟩
  cases r <;> simp

/-- Claim C10: the boolean (or propagated exception) returned by
`requestNotificationPermission(silent)` is independent of `silent`: for every
fixed permission state and prompt outcome the silent and non-silent calls
return the same value, and the silent call surfaces no alert. -/
theorem rnp_silent_indep (env : Env) :
    (requestNotificationPermission env true).1
      = (requestNotificationPermission env false).1
    ∧ alertsOf (requestNotificationPermission env true).2 = [] := by
  unfold requestNotificationPermission
  by_cases hav : env.notificationAvailable = false
  · simp [hav, alertsOf]
  · by_cases hg : env.permission = Permission.granted
    · simp [hav, hg, alertsOf]
    · by_cases hd : env.permission = Permission.denied
      · simp [hav, hg, hd, alertsOf]
      · cases hr : env.requestPermission with
        | error e => simp [hav, hg, hd, hr, alertsOf]
        | ok status => cases status <;> simp [hav, hg, hd, hr, alertsOf]

/-- Claim C5: `autoSubscribe()` surfaces no alert under any behaviour of the
platform; whenever it returns false at least one console message was
emitted; when already subscribed it returns true without a platform or
remote subscribe attempt; and each of the enumerated internal failures
(API unavailable, permission not granted after the silent request including
a rejecting prompt, platform subscribe failure, remote non-success or
exception) makes it return false. -/
theorem autoSubscribe_silent_failures (env : Env) :
    alertsOf (autoSubscribe env).2 = []
    ∧ ((autoSubscribe env).1 = false → logsOf (autoSubscribe env).2 ≠ [])
    ∧ (env.notificationAvailable = false → (autoSubscribe env).1 = false)
    ∧ (∀ s : Subscription, env.notificationAvailable = true →
        env.swReady = Except.ok () → env.getSubscription = Except.ok (some s) →
        (autoSubscribe env).1 = true
        ∧ (autoSubscribe env).2.countP isPmSubscribe = 0)
    ∧ (env.notificationAvailable = true → env.swReady = Except.ok () →
        env.getSubscription = Except.ok none →
        ((env.permission = Permission.denied
            ∨ (env.permission = Permission.defaultP
               ∧ (env.requestPermission = Except.ok Permission.denied
                  ∨ env.requestPermission = Except.ok Permission.defaultP
                  ∨ (∃ e, env.requestPermission = Except.error e)))) →
          (autoSubscribe env).1 = false)
        ∧ (env.permission = Permission.granted →
            ((∃ e, env.pmSubscribe = Except.error e) →
              (autoSubscribe env).1 = false)
            ∧ (∀ sub : Subscription, env.pmSubscribe = Except.ok sub →
                ((∃ e, env.subscribePushNotification sub.endpoint sub.keys
                    = Except.error e)
                  ∨ env.subscribePushNotification sub.endpoint sub.keys
                    = Except.ok ⟨false⟩) →
                (autoSubscribe env).1 = false))) := by
  by_cases hav : env.notificationAvailable = false
  · simp [autoSubscribe, autoSubscribeTry, hav, alertsOf, logsOf]
  · cases hsw : env.swReady with
    | error e =>
      simp [autoSubscribe, autoSubscribeTry, getPushSubscription, hav, hsw,
        alertsOf, logsOf]
    | ok u =>
      cases hget : env.getSubscription with
      | error e =>
        simp [autoSubscribe, autoSubscribeTry, getPushSubscription, hav, hsw, hget,
          alertsOf, logsOf]
      | ok so =>
        cases so with
        | some s =>
          simp [autoSubscribe, autoSubscribeTry, getPushSubscription, hav, hsw, hget,
            alertsOf, logsOf, isPmSubscribe, List.countP_cons, List.countP_append]
        | none =>
          by_cases hg : env.permission = Permission.granted
          · cases hpm : env.pmSubscribe with
            | error e =>
              simp [autoSubscribe, autoSubscribeTry, getPushSubscription,
                requestNotificationPermission, hav, hsw, hget, hg, hpm,
                alertsOf, logsOf]
            | ok sub =>
              cases hapi : env.subscribePushNotification sub.endpoint sub.keys with
              | error e =>
                simp [autoSubscribe, autoSubscribeTry, getPushSubscription,
                  requestNotificationPermission, hav, hsw, hget, hg, hpm, hapi,
                  alertsOf, logsOf]
              | ok resp =>
                obtain ⟨rok⟩ := resp
                cases rok with
                | false =>
                  cases hun : sub.unsubscribe with
                  | error e =>
                    simp [autoSubscribe, autoSubscribeTry, getPushSubscription,
                      requestNotificationPermission, hav, hsw, hget, hg, hpm, hapi,
                      hun, alertsOf, logsOf]
                  | ok b =>
                    simp [autoSubscribe, autoSubscribeTry, getPushSubscription,
                      requestNotificationPermission, hav, hsw, hget, hg, hpm, hapi,
                      hun, alertsOf, logsOf]
                | true =>
                  simp [autoSubscribe, autoSubscribeTry, getPushSubscription,
                    requestNotificationPermission, hav, hsw, hget, hg, hpm, hapi,
                    alertsOf, logsOf]
          · by_cases hd : env.permission = Permission.denied
            · simp [autoSubscribe, autoSubscribeTry, getPushSubscription,
                requestNotificationPermission, hav, hsw, hget, hg, hd,
                alertsOf, logsOf]
            · cases hr : env.requestPermission with
              | error e =>
                simp [autoSubscribe, autoSubscribeTry, getPushSubscription,
                  requestNotificationPermission, hav, hsw, hget, hg, hd, hr,
                  alertsOf, logsOf]
              | ok status =>
                cases status with
                | denied =>
                  simp [autoSubscribe, autoSubscribeTry, getPushSubscription,
                    requestNotificationPermission, hav, hsw, hget, hg, hd, hr,
                    alertsOf, logsOf]
                | defaultP =>
                  simp [autoSubscribe, autoSubscribeTry, getPushSubscription,
                    requestNotificationPermission, hav, hsw, hget, hg, hd, hr,
                    alertsOf, logsOf]
                | granted =>
                  cases hpm : env.pmSubscribe with
                  | error e =>
                    simp [autoSubscribe, autoSubscribeTry, getPushSubscription,
                      requestNotificationPermission, hav, hsw, hget, hg, hd, hr, hpm,
                      alertsOf, logsOf]
                  | ok sub =>
                    cases hapi : env.subscribePushNotification sub.endpoint sub.keys with
                    | error e =>
                      simp [autoSubscribe, autoSubscribeTry, getPushSubscription,
                        requestNotificationPermission, hav, hsw, hget, hg, hd, hr,
                        hpm, hapi, alertsOf, logsOf]
                    | ok resp =>
                      obtain ⟨rok⟩ := resp
                      cases rok with
                      | false =>
                        cases hun : sub.unsubscribe with
                        | error e =>
                          simp [autoSubscribe, autoSubscribeTry, getPushSubscription,
                            requestNotificationPermission, hav, hsw, hget, hg, hd,
                            hr, hpm, hapi, hun, alertsOf, logsOf]
                        | ok b =>
                          simp [autoSubscribe, autoSubscribeTry, getPushSubscription,
                            requestNotificationPermission, hav, hsw, hget, hg, hd,
                            hr, hpm, hapi, hun, alertsOf, logsOf]
                      | true =>
                        simp [autoSubscribe, autoSubscribeTry, getPushSubscription,
                          requestNotificationPermission, hav, hsw, hget, hg, hd,
                          hr, hpm, hapi, alertsOf, logsOf]

/-- Claim C4: in `autoSubscribe()`, with notifications available, no existing
subscription, permission granted, a successful platform subscribe and a
remote registration reporting non-success, the just-created subscription has
its `unsubscribe()` invoked (exactly one such call in the trace) and the
function returns false — whether or not the rollback itself succeeds. -/
theorem autoSubscribe_rollback (env : Env) (sub : Subscription)
    (hav : env.notificationAvailable = true)
    (hsw : env.swReady = Except.ok ())
    (hget : env.getSubscription = Except.ok none)
    (hg : env.permission = Permission.granted)
    (hpm : env.pmSubscribe = Except.ok sub)
    (hapi : env.subscribePushNotification sub.endpoint sub.keys
      = Except.ok ⟨false⟩) :
    (autoSubscribe env).1 = false
    ∧ (autoSubscribe env).2.countP isSubUnsub = 1 := by
  cases hun : sub.unsubscribe with
  | error e =>
    simp [autoSubscribe, autoSubscribeTry, getPushSubscription,
      requestNotificationPermission, hav, hsw, hget, hg, hpm, hapi, hun, isSubUnsub,
      List.countP_cons, List.countP_append]
  | ok b =>
    simp [autoSubscribe, autoSubscribeTry, getPushSubscription,
      requestNotificationPermission, hav, hsw, hget, hg, hpm, hapi, hun, isSubUnsub,
      List.countP_cons, List.countP_append]

/-- Claim C3 amended: in `subscribe()` under granted permission, no prior
subscription, and a successful platform subscribe whose rollback
`unsubscribe()` does not itself throw, a remote `{ok: false}` response or a
remote exception leads to exactly one rollback `unsubscribe()` call and
exactly one failure alert, but the failure alert is surfaced BEFORE the
rollback is attempted (the source alerts first, then undoes), in both the
non-ok-response path and the exception path. -/
theorem subscribe_rollback_alert_order (env : Env) (sub : Subscription) (b : Bool)
    (hav : env.notificationAvailable = true)
    (hg : env.permission = Permission.granted)
    (hsw : env.swReady = Except.ok ())
    (hget : env.getSubscription = Except.ok none)
    (hpm : env.pmSubscribe = Except.ok sub)
    (hun : sub.unsubscribe = Except.ok b) :
    (env.subscribePushNotification sub.endpoint sub.keys = Except.ok ⟨false⟩ →
      (subscribe env).2.countP isSubUnsub = 1
      ∧ (subscribe env).2.countP isFailureSubAlert = 1
      ∧ (subscribe env).2.findIdx isFailureSubAlert
          < (subscribe env).2.findIdx isSubUnsub)
    ∧ (∀ e, env.subscribePushNotification sub.endpoint sub.keys = Except.error e →
      (subscribe env).2.countP isSubUnsub = 1
      ∧ (subscribe env).2.countP isFailureSubAlert = 1
      ∧ (subscribe env).2.findIdx isFailureSubAlert
          < (subscribe env).2.findIdx isSubUnsub) := by
  constructor
  · intro hapi
    simp [subscribe, subscribeTry, getPushSubscription, requestNotificationPermission,
      hav, hg, hsw, hget, hpm, hun, hapi, isSubUnsub, isFailureSubAlert,
      List.countP_cons, List.countP_append, List.findIdx_cons]
  · intro e hapi
    simp [subscribe, subscribeTry, getPushSubscription, requestNotificationPermission,
      hav, hg, hsw, hget, hpm, hun, hapi, isSubUnsub, isFailureSubAlert,
      List.countP_cons, List.countP_append, List.findIdx_cons]

/-- Environment of the C3 counterexample and several witnesses: permission
granted, no existing subscription, platform subscribe succeeds, the remote
registration resolves with ok false, and every platform call behaves. -/
def subEnvOkFalse : Env :=
  { notificationAvailable := true
    permission := Permission.granted
    requestPermission := Except.ok Permission.granted
    swReady := Except.ok ()
    getSubscription := Except.ok none
    pmSubscribe := Except.ok { endpoint := "ep", keys := "k", unsubscribe := Except.ok true }
    subscribePushNotification := fun _ _ => Except.ok ⟨false⟩
    unsubscribePushNotification := fun _ => Except.ok ⟨true⟩ }

/-- Counterexample to C3 as stated: in the `{ok: false}` scenario the
rollback `unsubscribe()` and the failure alert each happen exactly once, but
the unsubscribe is NOT attempted before the failure alert — the alert comes
first in the trace. -/
theorem subscribe_alert_order_counterexample :
    ((subscribe subEnvOkFalse).2.countP isSubUnsub = 1
     ∧ (subscribe subEnvOkFalse).2.countP isFailureSubAlert = 1)
    ∧ ¬ (subscribe subEnvOkFalse).2.findIdx isSubUnsub
        < (subscribe subEnvOkFalse).2.findIdx isFailureSubAlert := by
  decide

/-- Witness for the amended C3 at the concrete ok-false environment. -/
theorem subscribe_rollback_alert_order_witness :
    (subscribe subEnvOkFalse).2.countP isSubUnsub = 1
    ∧ (subscribe subEnvOkFalse).2.countP isFailureSubAlert = 1
    ∧ (subscribe subEnvOkFalse).2.findIdx isFailureSubAlert
        < (subscribe subEnvOkFalse).2.findIdx isSubUnsub :=
  (subscribe_rollback_alert_order subEnvOkFalse
      { endpoint := "ep", keys := "k", unsubscribe := Except.ok true } true
      rfl rfl rfl rfl rfl rfl).1 rfl

/-- Environment of the C2 counterexample: `navigator.serviceWorker.ready`
rejects while everything else behaves; permission is already granted. -/
def swRejectEnv : Env :=
  { notificationAvailable := true
    permission := Permission.granted
    requestPermission := Except.ok Permission.granted
    swReady := Except.error ("service worker ready rejected")
    getSubscription := Except.ok none
    pmSubscribe := Except.error ("unreached")
    subscribePushNotification := fun _ _ => Except.ok ⟨true⟩
    unsubscribePushNotification := fun _ => Except.ok ⟨true⟩ }

/-- Counterexample to C2 as stated: with `serviceWorker.ready` rejecting,
the rejection propagates uncaught out of `subscribe()` (the
already-subscribed check runs before the `try` block). -/
theorem subscribe_propagates_counterexample :
    (subscribe swRejectEnv).1 = Except.error ("service worker ready rejected") :=
  rfl

/-- Claim C2 amended: `unsubscribe()` never propagates an exception and
`autoSubscribe()` converts every exception of its body to a false return
(it returns a boolean for every environment); `subscribe()` propagates no
exception provided the permission prompt, service-worker readiness, the
subscription lookup and the platform subscribe do not throw and the created
subscription rollback `unsubscribe()` does not throw — in particular a
remote API exception or non-success is still converted to an alert.
Exceptions thrown before the platform subscription exists, or by the
rollback itself, do propagate out of `subscribe()`. -/
theorem no_uncaught_propagation_amended (env : Env) (p : Permission)
    (so : Option Subscription) (sub : Subscription) (b : Bool)
    (hreq : env.requestPermission = Except.ok p)
    (hsw : env.swReady = Except.ok ())
    (hget : env.getSubscription = Except.ok so)
    (hpm : env.pmSubscribe = Except.ok sub)
    (hun : sub.unsubscribe = Except.ok b) :
    (subscribe env).1 = Except.ok ()
    ∧ (unsubscribe env).1 = Except.ok ()
    ∧ (∀ e, (autoSubscribeTry env).1 = Except.error e →
        (autoSubscribe env).1 = false) := by
  refine ⟨?_, unsubscribe_never_throws env, ?_⟩
  · by_cases hav : env.notificationAvailable = false
    · simp [subscribe, requestNotificationPermission, hav]
    · have tail : ∀ (h : (requestNotificationPermission env false).1 = Except.ok true),
        (subscribe env).1 = Except.ok () := by
        intro h
        cases so with
        | some s =>
          rcases hrnp : requestNotificationPermission env false with ⟨r, t⟩
          rw [hrnp] at h
          simp at h
          subst h
          simp [subscribe, getPushSubscription, hsw, hget, hrnp]
        | none =>
          rcases hrnp : requestNotificationPermission env false with ⟨r, t⟩
          rw [hrnp] at h
          simp at h
          subst h
          cases hapi : env.subscribePushNotification sub.endpoint sub.keys with
          | error e =>
            simp [subscribe, subscribeTry, getPushSubscription, hsw, hget, hpm,
              hapi, hun, hrnp]
          | ok resp =>
            cases hro : resp.ok with
            | false =>
              simp [subscribe, subscribeTry, getPushSubscription, hsw, hget, hpm,
                hapi, hro, hun, hrnp]
            | true =>
              simp [subscribe, subscribeTry, getPushSubscription, hsw, hget, hpm,
                hapi, hro, hun, hrnp]
      by_cases hg : env.permission = Permission.granted
      · exact tail (by simp [requestNotificationPermission, hav, hg])
      · by_cases hd : env.permission = Permission.denied
        · simp [subscribe, requestNotificationPermission, hav, hg, hd]
        · cases p with
          | granted =>
            exact tail (by simp [requestNotificationPermission, hav, hg, hd, hreq])
          | denied => simp [subscribe, requestNotificationPermission, hav, hg, hd, hreq]
          | defaultP => simp [subscribe, requestNotificationPermission, hav, hg, hd, hreq]
  · intro e he
    unfold autoSubscribe
    rcases h : autoSubscribeTry env with ⟨r, t⟩
    rw [h] at he
    simp at he
    subst he
    simp

/-- Witness for the amended C2 at the all-resolving environment. -/
theorem no_uncaught_propagation_amended_witness :
    (subscribe subEnvOkFalse).1 = Except.ok ()
    ∧ (unsubscribe subEnvOkFalse).1 = Except.ok () :=
  ⟨(no_uncaught_propagation_amended subEnvOkFalse Permission.granted none
      { endpoint := "ep", keys := "k", unsubscribe := Except.ok true } true
      rfl rfl rfl rfl rfl).1,
   (no_uncaught_propagation_amended subEnvOkFalse Permission.granted none
      { endpoint := "ep", keys := "k", unsubscribe := Except.ok true } true
      rfl rfl rfl rfl rfl).2.1⟩

/-- Witness for C4 at the concrete ok-false environment. -/
theorem autoSubscribe_rollback_witness :
    (autoSubscribe subEnvOkFalse).1 = false
    ∧ (autoSubscribe subEnvOkFalse).2.countP isSubUnsub = 1 :=
  autoSubscribe_rollback subEnvOkFalse
    { endpoint := "ep", keys := "k", unsubscribe := Except.ok true }
    rfl rfl rfl rfl rfl rfl

/-- Witness for C5 at the concrete ok-false environment: no alert and a
false return on a remote-reported failure. -/
theorem autoSubscribe_silent_failures_witness :
    alertsOf (autoSubscribe subEnvOkFalse).2 = []
    ∧ (autoSubscribe subEnvOkFalse).1 = false :=
  ⟨(autoSubscribe_silent_failures subEnvOkFalse).1,
   (((autoSubscribe_silent_failures subEnvOkFalse).2.2.2.2 rfl rfl rfl).2 rfl).2
     { endpoint := "ep", keys := "k", unsubscribe := Except.ok true }
     rfl (Or.inr rfl)⟩

/-- Claim C6: in `unsubscribe()` with a current subscription: a
remote-reported failure alerts and stops with no platform unsubscribe call;
a remote success followed by a platform `unsubscribe()` resolving false
alerts failure and re-registers the endpoint and keys with the remote
subscribe API as compensation; and only when both steps succeed is success
alerted. -/
theorem unsubscribe_flow (env : Env) (sub : Subscription)
    (hsw : env.swReady = Except.ok ())
    (hget : env.getSubscription = Except.ok (some sub)) :
    (env.unsubscribePushNotification sub.endpoint = Except.ok ⟨false⟩ →
      alertsOf (unsubscribe env).2 = [failureUnsubscribeMessage]
      ∧ (unsubscribe env).2.countP isSubUnsub = 0)
    ∧ (env.unsubscribePushNotification sub.endpoint = Except.ok ⟨true⟩ →
        sub.unsubscribe = Except.ok false →
        failureUnsubscribeMessage ∈ alertsOf (unsubscribe env).2
        ∧ Ev.apiSubscribeCall sub.endpoint sub.keys ∈ (unsubscribe env).2)
    ∧ (env.unsubscribePushNotification sub.endpoint = Except.ok ⟨true⟩ →
        sub.unsubscribe = Except.ok true →
        alertsOf (unsubscribe env).2 = [successUnsubscribeMessage]) := by
  refine ⟨?_, ?_, ?_⟩
  · intro hapi
    simp [unsubscribe, unsubscribeTry, getPushSubscription, hsw, hget, hapi,
      alertsOf, isSubUnsub, List.countP_cons, List.countP_append]
  · intro hapi hun
    cases hcomp : env.subscribePushNotification sub.endpoint sub.keys with
    | error e =>
      simp [unsubscribe, unsubscribeTry, getPushSubscription, hsw, hget, hapi, hun,
        hcomp, alertsOf]
    | ok r =>
      simp [unsubscribe, unsubscribeTry, getPushSubscription, hsw, hget, hapi, hun,
        hcomp, alertsOf]
  · intro hapi hun
    simp [unsubscribe, unsubscribeTry, getPushSubscription, hsw, hget, hapi, hun,
      alertsOf]

/-- Environment of the C6 witness: a current subscription whose remote and
platform unsubscribe steps both succeed. -/
def unsubEnvOk : Env :=
  { notificationAvailable := true
    permission := Permission.granted
    requestPermission := Except.ok Permission.granted
    swReady := Except.ok ()
    getSubscription := Except.ok
      (some { endpoint := "ep2", keys := "k2", unsubscribe := Except.ok true })
    pmSubscribe := Except.error ("unused")
    subscribePushNotification := fun _ _ => Except.ok ⟨true⟩
    unsubscribePushNotification := fun _ => Except.ok ⟨true⟩ }

/-- Witness for C6: the full-success path alerts success exactly once. -/
theorem unsubscribe_flow_witness :
    alertsOf (unsubscribe unsubEnvOk).2 = [successUnsubscribeMessage] :=
  (unsubscribe_flow unsubEnvOk
      { endpoint := "ep2", keys := "k2", unsubscribe := Except.ok true }
      rfl rfl).2.2 rfl rfl

end NotificationHelper

